import Mathlib

/-!
Verification of the daily-programming-tip generator
(`scripts/generate_tip.py` and `workflows/generate_tip.py`).

The Python sources are shallowly embedded as follows:

* the process environment is a function `String → Option String`
  (`os.environ.get`); a missing variable is `none`;
* Python values that may be `None`, a string, or some other object
  (the completion message `content` attribute) are the type `PyVal`,
  with Python truthiness given by `pyTruthy`;
* JSON payloads returned by remote endpoints are the inductive `Json`;
  a JSON object is an association list of fields;
* code that raises becomes `Except String α`, the error string being the
  exception message (a Python `KeyError`/`AttributeError` from an
  unguarded access is an `Except.error` whose message names it);
* network transport is abstracted: each function that performs a remote
  call receives the decoded response payload as an explicit argument and
  is modelled on its response-processing code; `main`
  additionally records the externally visible steps it takes
  (prints and outbound GraphQL calls) as a list of `MainAction`s.
-/

/-- A Python value that is either `None`, a `str`, or some other object
(only its truthiness matters for the embedded code). -/
inductive PyVal where
  | none
  | str (s : String)
  | other (truthy : Bool)
deriving Repr, DecidableEq

/-- Python truthiness: `None` is falsy, a string is truthy iff nonempty,
any other object carries its truthiness. -/
def pyTruthy : PyVal → Bool
  | .none => false
  | .str s => !s.isEmpty
  | .other t => t

/-- `isinstance(v, str)`. -/
def isStr : PyVal → Bool
  | .str _ => true
  | _ => false

/-- Python's `str.strip()` with no argument: remove leading and trailing
whitespace. -/
def pyStrip (s : String) : String :=
  ((s.toList.dropWhile Char.isWhitespace).reverse.dropWhile Char.isWhitespace).reverse.asString

/-- Python's `str.lower()` (character-wise case folding). -/
def pyLower (s : String) : String := (s.toList.map Char.toLower).asString

/-- The `message` object of one completion choice: its `content`
attribute (`PyVal.none` models both an absent attribute and `None`,
matching `getattr(message, "content", None)`). -/
structure Message where
  content : PyVal
deriving Repr, DecidableEq

/-- The dictionary returned by `get_current_day_info`. -/
structure DayInfo where
  day_name : String
  language : String
  date : String
deriving Repr, DecidableEq

/-- A decoded JSON value. -/
inductive Json where
  | null
  | bool (b : Bool)
  | num (n : Int)
  | str (s : String)
  | arr (elems : List Json)
  | obj (fields : List (String × Json))

/-- Key lookup in a JSON object's field list (Python `dict` access; keys
are unique in a dict, so first-match lookup is faithful). -/
def getKey : List (String × Json) → String → Option Json
  | [], _ => none
  | (k, v) :: rest, key => if key = k then some v else getKey rest key

/-- Lookup in an `int → str` dictionary literal such as
`LANGUAGE_SCHEDULE` and `DAY_NAMES`. -/
def dictGet : List (Nat × String) → Nat → Option String
  | [], _ => none
  | (k, v) :: rest, key => if key = k then some v else dictGet rest key

mutual

/-- Rendering of a JSON value into the text Python interpolates with
`f"... {payload['errors']}"` (the error detail of a GraphQL response). -/
def reprJson : Json → String
  | .null => "None"
  | .bool b => cond b "True" "False"
  | .num n => toString n
  | .str s => "\x27" ++ s ++ "\x27"
  | .arr xs => "[" ++ reprJsonArr xs ++ "]"
  | .obj fs => "\x7b" ++ reprJsonObj fs ++ "\x7d"

/-- Comma-separated rendering of a JSON array's elements. -/
def reprJsonArr : List Json → String
  | [] => ""
  | [x] => reprJson x
  | x :: y :: rest => reprJson x ++ ", " ++ reprJsonArr (y :: rest)

/-- Comma-separated rendering of a JSON object's fields. -/
def reprJsonObj : List (String × Json) → String
  | [] => ""
  | [(k, v)] => "\x27" ++ k ++ "\x27: " ++ reprJson v
  | (k, v) :: p :: rest => "\x27" ++ k ++ "\x27: " ++ reprJson v ++ ", " ++ reprJsonObj (p :: rest)

end

/-- One externally visible step taken by `main`: a line written to
stdout, or one of the two outbound GitHub GraphQL calls. -/
inductive MainAction where
  | print (s : String)
  | fetchRepositoryIdCall
  | createDiscussionCall (repo_id : String) (title : String) (body : String)
deriving Repr, DecidableEq

namespace scripts

/-- `require_env` (scripts/generate_tip.py:18-24): fetch an environment
variable or raise; `if not value` catches both an absent variable and an
empty string. -/
def require_env (env : String → Option String) (var_name : String) : Except String String :=
  match env var_name with
  | .none => .error ("Missing required environment variable: " ++ var_name)
  | .some value =>
    if value.isEmpty then .error ("Missing required environment variable: " ++ var_name)
    else .ok value

/-- The text of `raw` before its first `/` (first component of
`raw.split("/", 1)`). -/
def ownerFromSlug (raw : String) : String :=
  (raw.toList.takeWhile (fun c => c != '/')).asString

/-- The text of `raw` after its first `/` (second component of
`raw.split("/", 1)`). -/
def repoFromSlug (raw : String) : String :=
  ((raw.toList.dropWhile (fun c => c != '/')).drop 1).asString

/-- The module-level repository-identity resolution
(scripts/generate_tip.py:30-43), given the `REPO_OWNER` environment
value and the (already validated) `REPO_NAME` value: a slug containing
`/` is split at the first `/`; otherwise a non-empty `REPO_OWNER` is
required. -/
def load_repo_identity (repo_owner_env : Option String) (repo_name_raw : String) :
    Except String (String × String) :=
  if repo_name_raw.toList.contains '/' then
    .ok (ownerFromSlug repo_name_raw, repoFromSlug repo_name_raw)
  else
    match repo_owner_env with
    | .none =>
      .error "REPO_OWNER environment variable is required when REPO_NAME does not include the owner"
    | .some o =>
      if o.isEmpty then
        .error "REPO_OWNER environment variable is required when REPO_NAME does not include the owner"
      else .ok (o, repo_name_raw)

/-- `DRY_RUN` (scripts/generate_tip.py:46):
`os.environ.get("DRY_RUN", "false").lower() == "true"`. -/
def DRY_RUN (env : String → Option String) : Bool :=
  pyLower ((env "DRY_RUN").getD "false") == "true"

/-- `LANGUAGE_SCHEDULE` (scripts/generate_tip.py:49-57). -/
def LANGUAGE_SCHEDULE : List (Nat × String) :=
  [(0, "Wildcard"), (1, "Python"), (2, "Java"), (3, "JavaScript"),
   (4, "Go"), (5, "Wildcard"), (6, "Wildcard")]

/-- `DAY_NAMES` (scripts/generate_tip.py:60-68). -/
def DAY_NAMES : List (Nat × String) :=
  [(0, "Sunday"), (1, "Monday"), (2, "Tuesday"), (3, "Wednesday"),
   (4, "Thursday"), (5, "Friday"), (6, "Saturday")]

/-- The two table lookups of `get_current_day_info` at an already
re-indexed weekday (a missing key would be a Python `KeyError`, i.e.
`none`). -/
def dayInfoAt (weekday : Nat) (dateStr : String) : Option DayInfo :=
  match dictGet DAY_NAMES weekday, dictGet LANGUAGE_SCHEDULE weekday with
  | some dn, some lang => some ⟨dn, lang, dateStr⟩
  | _, _ => none

/-- `get_current_day_info` (scripts/generate_tip.py:71-80).
`pyWeekday` is `datetime.now(timezone.utc).weekday()` (Monday = 0 …
Sunday = 6) and `dateStr` is `now.strftime("%Y-%m-%d")`; the function
re-indexes with `now.weekday() + 1 if now.weekday() != 6 else 0`. -/
def get_current_day_info (pyWeekday : Nat) (dateStr : String) : Option DayInfo :=
  dayInfoAt (if pyWeekday ≠ 6 then pyWeekday + 1 else 0) dateStr

/-- `SYSTEM_PROMPT` (scripts/generate_tip.py:83-87). -/
def SYSTEM_PROMPT : String :=
  "You are an expert AI instructor who writes daily programming insight posts for " ++
  "beginners. Always reply with valid Markdown that is professional, concise, and " ++
  "aligned with the provided outline. Never include extra sections or commentary."

/-- Segment of the `build_user_prompt` f-string before `{day_info['date']}`. -/
def promptSeg1 : String :=
  "Create today\x27s GitHub Discussion post for the Daily Programming Insight series.\n\nDate: "

/-- Segment of the `build_user_prompt` f-string between `{day_info['date']}`
and `{day_name}`. -/
def promptSeg2 : String := "\nDay: "

/-- Segment of the `build_user_prompt` f-string between `{day_name}` and the
first `{language}`. -/
def promptSeg3 : String := "\nScheduled Language: "

/-- Segment of the `build_user_prompt` f-string between the first and the
second `{language}`. -/
def promptSeg4 : String :=
  "\n\nFollow these exact rules:\n\nLanguage schedule\n- Monday → Python\n- Tuesday → Java\n- Wednesday → JavaScript\n- Thursday → Go\n- Friday, Saturday, Sunday → Wildcard (you may pick any language, including niche or emerging ones)\n\nPost structure and formatting\n1. Introduction — 1-2 sentences introducing yourself as the AI assistant.\n2. Topic Preview — Clearly state the specific concept or technique covered today.\n3. Fun Fact — 2-4 sentences about the scheduled language including year or origin context.\n4. Tips/Notes — Provide exactly 1-2 practical syntax tips, functions, or features for the language.\n5. Code Snippet — Provide a runnable example in the scheduled language that demonstrates the concept. Use a fenced code block tagged with the lowercase language name. The snippet must be 30-50 lines, beginner-friendly yet intermediate in difficulty, and follow PEP 8 if the language is Python. Include helpful inline comments.\n6. Explanation — Offer a step-by-step breakdown of how the code works, why the concept matters, and practical use cases. Use numbered steps.\n7. Sources — If you referenced any external material, cite the links in Markdown list format. If not, output \"Sources: None\".\n\nAdditional requirements\n- Maintain professional, concise, beginner-friendly tone.\n- Never add sections beyond the list above.\n- Always produce valid Markdown.\n- For wildcard days, still follow the structure and pick a language that differs from the workweek schedule.\n- Topic Preview, Fun Fact, and Tips must relate to the scheduled language ("

/-- Segment of the `build_user_prompt` f-string after the second
`{language}`. -/
def promptSeg5 : String :=
  ").\n\nReturn only the finished Markdown post with the seven sections in the order listed."

/-- `build_user_prompt` (scripts/generate_tip.py:90-126): the rendered
f-string, with its four interpolations (`date`, `day_name`, `language`,
and `language` again near the end). -/
def build_user_prompt (day_info : DayInfo) : String :=
  promptSeg1 ++ day_info.date ++ promptSeg2 ++ day_info.day_name ++ promptSeg3 ++
    day_info.language ++ promptSeg4 ++ day_info.language ++ promptSeg5

/-- `generate_programming_tip` (scripts/generate_tip.py:129-153),
modelled on its response handling: the request (model name, temperature,
`SYSTEM_PROMPT` and `build_user_prompt day_info` as messages) is
transport-side, and `choices` is the response's choice list. -/
def generate_programming_tip (day_info : DayInfo) (choices : List Message) :
    Except String String :=
  match day_info, choices with
  | _, [] => .error "Groq completion response did not contain choices"
  | _, m :: _ =>
    if !pyTruthy m.content || !isStr m.content then
      .error "Received empty or non-string content from Groq completion"
    else
      match m.content with
      | .str s =>
        if (pyStrip s).isEmpty then
          .error "Groq completion content was blank after stripping whitespace"
        else .ok (pyStrip s)
      | _ => .error "Received empty or non-string content from Groq completion"

/-- `github_graphql` (scripts/generate_tip.py:156-173), modelled on its
handling of the decoded response body `payload` (a JSON object): an
`errors` key raises with the rendered detail, otherwise `payload["data"]`
is returned (a `KeyError` if absent). -/
def github_graphql (payload : List (String × Json)) : Except String Json :=
  match getKey payload "errors" with
  | some errs => .error ("GitHub GraphQL error: " ++ reprJson errs)
  | none =>
    match getKey payload "data" with
    | some d => .ok d
    | none => .error "KeyError: \x27data\x27"

/-- `fetch_repository_id` (scripts/generate_tip.py:176-196), modelled on
its handling of the GraphQL response `payload`: requires
`data.repository` to be an object containing `id`, and `id` to be a
non-empty string (`data.get` on a non-object would be an
`AttributeError`). -/
def fetch_repository_id (payload : List (String × Json)) : Except String String :=
  match github_graphql payload with
  | .error e => .error e
  | .ok (.obj dataFields) =>
    match getKey dataFields "repository" with
    | some (.obj repoFields) =>
      match getKey repoFields "id" with
      | none => .error "Unable to resolve repository ID from GitHub API response"
      | some (.str s) =>
        if s.isEmpty then .error "GitHub repository ID was missing or invalid"
        else .ok s
      | some _ => .error "GitHub repository ID was missing or invalid"
    | _ => .error "Unable to resolve repository ID from GitHub API response"
  | .ok _ => .error "AttributeError: get"

/-- The `discussion` value computed by `create_discussion`
(scripts/generate_tip.py:223-226): `data.get("createDiscussion")`, then
`.get("discussion")` when that is a mapping, else `None`. -/
def discussionOf (dataFields : List (String × Json)) : Option Json :=
  match getKey dataFields "createDiscussion" with
  | some (.obj cdFields) => getKey cdFields "discussion"
  | _ => none

/-- `create_discussion` (scripts/generate_tip.py:199-233), modelled on
its handling of the GraphQL response `payload` (the mutation input
`repo_id`/`title`/`body` is transport-side): requires the computed
`discussion` value to be an object containing `url`, and `url` to be a
non-empty string. -/
def create_discussion (payload : List (String × Json)) (repo_id title body : String) :
    Except String String :=
  match github_graphql payload with
  | .error e => .error e
  | .ok (.obj dataFields) =>
    match repo_id, title, body, discussionOf dataFields with
    | _, _, _, some (.obj discFields) =>
      match getKey discFields "url" with
      | none => .error "GitHub did not return a discussion URL"
      | some (.str s) =>
        if s.isEmpty then .error "GitHub discussion URL was missing or invalid"
        else .ok s
      | some _ => .error "GitHub discussion URL was missing or invalid"
    | _, _, _, _ => .error "GitHub did not return a discussion URL"
  | .ok _ => .error "AttributeError: get"

/-- `main` (scripts/generate_tip.py:236-257). Inputs: the `DRY_RUN`
flag, the primitive weekday and date (fed to `get_current_day_info`),
the completion response's choice list, and the payloads the two GraphQL
endpoints would respond with. Output: the list of externally visible
actions in order, and `ok` for a normal return or `error` for an
uncaught exception. -/
def main (dry_run : Bool) (pyWeekday : Nat) (dateStr : String)
    (choices : List Message) (repoPayload discPayload : List (String × Json)) :
    List MainAction × Except String Unit :=
  match get_current_day_info pyWeekday dateStr with
  | none => ([], .error "KeyError: weekday")
  | some day_info =>
    let firstLine : MainAction :=
      .print ("Generating Daily Programming Insight for " ++ day_info.day_name ++
        " (" ++ day_info.date ++ ")")
    match generate_programming_tip day_info choices with
    | .error e => ([firstLine], .error e)
    | .ok post_body =>
      let title :=
        "Daily Programming Insight — " ++ day_info.date ++ " (" ++ day_info.day_name ++ ")"
      if dry_run then
        ([firstLine, .print "DRY_RUN enabled - not posting to GitHub.",
          .print "--- Generated Post ---", .print post_body], .ok ())
      else
        match fetch_repository_id repoPayload with
        | .error e => ([firstLine, .fetchRepositoryIdCall], .error e)
        | .ok repo_id =>
          match create_discussion discPayload repo_id title post_body with
          | .error e =>
            ([firstLine, .fetchRepositoryIdCall,
              .createDiscussionCall repo_id title post_body], .error e)
          | .ok url =>
            ([firstLine, .fetchRepositoryIdCall,
              .createDiscussionCall repo_id title post_body,
              .print ("Discussion created successfully: " ++ url)], .ok ())

end scripts

namespace workflows

/-- `LANGUAGE_SCHEDULE` (workflows/generate_tip.py:16-24); Wednesday and
Thursday differ from the scripts variant. -/
def LANGUAGE_SCHEDULE : List (Nat × String) :=
  [(0, "Wildcard"), (1, "Python"), (2, "Java"), (3, "Go"),
   (4, "JavaScript"), (5, "Wildcard"), (6, "Wildcard")]

/-- `DAY_NAMES` (workflows/generate_tip.py:26-29). -/
def DAY_NAMES : List (Nat × String) :=
  [(0, "Sunday"), (1, "Monday"), (2, "Tuesday"), (3, "Wednesday"),
   (4, "Thursday"), (5, "Friday"), (6, "Saturday")]

/-- The two table lookups of the workflows variant's
`get_current_day_info` at an already re-indexed weekday. -/
def dayInfoAt (weekday : Nat) (dateStr : String) : Option DayInfo :=
  match dictGet DAY_NAMES weekday, dictGet LANGUAGE_SCHEDULE weekday with
  | some dn, some lang => some ⟨dn, lang, dateStr⟩
  | _, _ => none

/-- `get_current_day_info` (workflows/generate_tip.py:31-40); identical
re-indexing to the scripts variant, over this file's tables. -/
def get_current_day_info (pyWeekday : Nat) (dateStr : String) : Option DayInfo :=
  dayInfoAt (if pyWeekday ≠ 6 then pyWeekday + 1 else 0) dateStr

end workflows

/-! ## General helper lemmas -/

/-- `String.toList` distributes over append. -/
theorem toList_app (a b : String) : (a ++ b).toList = a.toList ++ b.toList :=
  String.data_append a b

/-- `takeWhile (· != '/')` on a list whose first `/` is at the border of
`a` keeps exactly `a`. -/
theorem takeWhile_ne_slash (a b : List Char) (ha : ∀ c ∈ a, (c != '/') = true) :
    (a ++ '/' :: b).takeWhile (fun c => c != '/') = a := by
  induction a with
  | nil => simp [List.takeWhile_cons]
  | cons x xs ih =>
    have hx : (x != '/') = true := ha x (List.mem_cons_self x xs)
    simp only [List.cons_append, List.takeWhile_cons, hx, if_true]
    rw [ih fun c hc => ha c (List.mem_cons_of_mem x hc)]

/-- `dropWhile (· != '/')` on a list whose first `/` is at the border of
`a` drops exactly `a`. -/
theorem dropWhile_ne_slash (a b : List Char) (ha : ∀ c ∈ a, (c != '/') = true) :
    (a ++ '/' :: b).dropWhile (fun c => c != '/') = '/' :: b := by
  induction a with
  | nil => simp [List.dropWhile_cons]
  | cons x xs ih =>
    have hx : (x != '/') = true := ha x (List.mem_cons_self x xs)
    simp only [List.cons_append, List.dropWhile_cons, hx, if_true]
    exact ih fun c hc => ha c (List.mem_cons_of_mem x hc)

/-- A slug `owner ++ "/" ++ name` whose `owner` part contains no `/` is
split by the loader into exactly `owner` and `name` (the `name` part may
itself contain further `/`). -/
theorem load_repo_identity_slug (repo_owner_env : Option String) (owner name : String)
    (h : owner.toList.contains '/' = false) :
    scripts.load_repo_identity repo_owner_env (owner ++ ("/" ++ name)) = .ok (owner, name) := by
  have hslash : ∀ c ∈ owner.toList, (c != '/') = true := by
    intro c hc
    rcases eq_or_ne c '/' with rfl | hne
    · exact absurd (List.elem_iff.mpr hc) (by simp [List.contains] at h; simp [h])
    · simp [hne]
  have h1 : (owner ++ ("/" ++ name)).toList = owner.toList ++ '/' :: name.toList := by
    rw [toList_app, toList_app]
    rfl
  have h2 : (owner ++ ("/" ++ name)).toList.contains '/' = true := by
    rw [h1]
    exact List.elem_iff.mpr (by simp)
  have ho : scripts.ownerFromSlug (owner ++ ("/" ++ name)) = owner := by
    unfold scripts.ownerFromSlug
    rw [h1, takeWhile_ne_slash _ _ hslash, String.asString_toList]
  have hr : scripts.repoFromSlug (owner ++ ("/" ++ name)) = name := by
    unfold scripts.repoFromSlug
    rw [h1, dropWhile_ne_slash _ _ hslash]
    exact String.asString_toList name
  unfold scripts.load_repo_identity
  rw [h2, if_pos rfl, ho, hr]

/-- A repository name with no `/` and an absent or empty `REPO_OWNER`
make the loader fail with the configuration error. -/
theorem load_repo_identity_no_owner (repo_name_raw : String)
    (hno : repo_name_raw.toList.contains '/' = false)
    (owner_env : Option String) (howner : owner_env = none ∨ owner_env = some "") :
    scripts.load_repo_identity owner_env repo_name_raw =
      .error "REPO_OWNER environment variable is required when REPO_NAME does not include the owner" := by
  unfold scripts.load_repo_identity
  rw [hno]
  rcases howner with h | h <;> subst h <;> rfl

/-- `dictGet` on the scripts schedule table misses every key `≥ 7`. -/
theorem scripts_schedule_none_of_seven_le (k : Nat) (hk : 7 ≤ k) :
    dictGet scripts.LANGUAGE_SCHEDULE k = none := by
  simp only [scripts.LANGUAGE_SCHEDULE, dictGet]
  rw [if_neg (by omega), if_neg (by omega), if_neg (by omega), if_neg (by omega),
    if_neg (by omega), if_neg (by omega), if_neg (by omega)]

/-- `dictGet` on the workflows schedule table misses every key `≥ 7`. -/
theorem workflows_schedule_none_of_seven_le (k : Nat) (hk : 7 ≤ k) :
    dictGet workflows.LANGUAGE_SCHEDULE k = none := by
  simp only [workflows.LANGUAGE_SCHEDULE, dictGet]
  rw [if_neg (by omega), if_neg (by omega), if_neg (by omega), if_neg (by omega),
    if_neg (by omega), if_neg (by omega), if_neg (by omega)]

/-! ## Claims -/

/-- C1: for every primitive weekday (Monday = 0 … Sunday = 6) and date,
`get_current_day_info` looks the day tables up at the Sunday = 0 …
Saturday = 6 re-indexing of the primitive: at index `0` when the
primitive gives `6` (Sunday), and at the primitive's value plus one for
every other day. -/
theorem c1_weekday_reindex (pyWeekday : Nat) (dateStr : String) :
    (pyWeekday = 6 →
      scripts.get_current_day_info pyWeekday dateStr = scripts.dayInfoAt 0 dateStr)
    ∧ (pyWeekday ≠ 6 →
      scripts.get_current_day_info pyWeekday dateStr =
        scripts.dayInfoAt (pyWeekday + 1) dateStr) := by
  constructor
  · intro h
    subst h
    simp [scripts.get_current_day_info]
  · intro h
    simp [scripts.get_current_day_info, h]

/-- Witness for C1 at the two shapes of input: primitive Sunday (6) and
primitive Wednesday (2). -/
theorem c1_weekday_reindex_witness :
    scripts.get_current_day_info 6 "2026-01-04" = scripts.dayInfoAt 0 "2026-01-04"
    ∧ scripts.get_current_day_info 2 "2026-01-07" = scripts.dayInfoAt 3 "2026-01-07" :=
  ⟨(c1_weekday_reindex 6 "2026-01-04").1 rfl,
   (c1_weekday_reindex 2 "2026-01-07").2 (by decide)⟩

/-- C7: both variants' schedule mappings are total — every weekday index
0–6 has a language and a day name — and for every primitive weekday the
resolver returns a (day name, language) pair that is one of the seven
entries (both tables read at the same index). -/
theorem c7_schedule_total :
    (∀ i : Fin 7,
      (dictGet scripts.LANGUAGE_SCHEDULE i.val).isSome = true
      ∧ (dictGet scripts.DAY_NAMES i.val).isSome = true
      ∧ (dictGet workflows.LANGUAGE_SCHEDULE i.val).isSome = true
      ∧ (dictGet workflows.DAY_NAMES i.val).isSome = true)
    ∧ (∀ pw : Fin 7, ∀ dateStr : String, ∃ di : DayInfo,
        scripts.get_current_day_info pw.val dateStr = some di
        ∧ ∃ i : Fin 7, dictGet scripts.DAY_NAMES i.val = some di.day_name
            ∧ dictGet scripts.LANGUAGE_SCHEDULE i.val = some di.language)
    ∧ (∀ pw : Fin 7, ∀ dateStr : String, ∃ di : DayInfo,
        workflows.get_current_day_info pw.val dateStr = some di
        ∧ ∃ i : Fin 7, dictGet workflows.DAY_NAMES i.val = some di.day_name
            ∧ dictGet workflows.LANGUAGE_SCHEDULE i.val = some di.language) := by
  refine ⟨by decide, ?_, ?_⟩ <;>
  · intro pw dateStr
    fin_cases pw <;>
      first
      | exact ⟨_, rfl, 0, rfl, rfl⟩
      | exact ⟨_, rfl, 1, rfl, rfl⟩
      | exact ⟨_, rfl, 2, rfl, rfl⟩
      | exact ⟨_, rfl, 3, rfl, rfl⟩
      | exact ⟨_, rfl, 4, rfl, rfl⟩
      | exact ⟨_, rfl, 5, rfl, rfl⟩
      | exact ⟨_, rfl, 6, rfl, rfl⟩

/-- C8: `require_env` fails with a configuration error naming the key
when the value is absent or empty, and returns the value unchanged
otherwise. -/
theorem c8_require_env (env : String → Option String) (var_name : String) :
    ((env var_name = none ∨ env var_name = some "") →
      scripts.require_env env var_name =
        .error ("Missing required environment variable: " ++ var_name))
    ∧ (∀ v, env var_name = some v → v ≠ "" →
      scripts.require_env env var_name = .ok v) := by
  constructor
  · rintro (h | h) <;>
      simp [scripts.require_env, h, show ("" : String).isEmpty = true from rfl]
  · intro v hv hne
    simp [scripts.require_env, hv, String.isEmpty_iff, hne]

/-- Witness for C8: a missing variable errors with the key named; a
present non-empty variable is returned unchanged. -/
theorem c8_require_env_witness :
    scripts.require_env (fun _ => none) "GITHUB_TOKEN" =
      .error ("Missing required environment variable: " ++ "GITHUB_TOKEN")
    ∧ scripts.require_env (fun _ => some "tok") "GITHUB_TOKEN" = .ok "tok" :=
  ⟨(c8_require_env (fun _ => none) "GITHUB_TOKEN").1 (Or.inl rfl),
   (c8_require_env (fun _ => some "tok") "GITHUB_TOKEN").2 "tok" rfl (by decide)⟩

/-- C9: the two variants' schedule tables disagree exactly on Wednesday
(index 3) and Thursday (index 4) — scripts has Wednesday→JavaScript,
Thursday→Go, workflows the reverse — and agree on every other index. -/
theorem c9_schedule_variants_disagree :
    dictGet scripts.LANGUAGE_SCHEDULE 3 = some "JavaScript"
    ∧ dictGet scripts.LANGUAGE_SCHEDULE 4 = some "Go"
    ∧ dictGet workflows.LANGUAGE_SCHEDULE 3 = some "Go"
    ∧ dictGet workflows.LANGUAGE_SCHEDULE 4 = some "JavaScript"
    ∧ ∀ i : Nat, i ≠ 3 → i ≠ 4 →
        dictGet scripts.LANGUAGE_SCHEDULE i = dictGet workflows.LANGUAGE_SCHEDULE i := by
  refine ⟨rfl, rfl, rfl, rfl, ?_⟩
  intro i h3 h4
  match i, h3, h4 with
  | 0, _, _ => rfl
  | 1, _, _ => rfl
  | 2, _, _ => rfl
  | 3, h3, _ => exact absurd rfl h3
  | 4, _, h4 => exact absurd rfl h4
  | 5, _, _ => rfl
  | 6, _, _ => rfl
  | (n + 7), _, _ =>
    rw [scripts_schedule_none_of_seven_le (n + 7) (by omega),
      workflows_schedule_none_of_seven_le (n + 7) (by omega)]

/-- Witness for C9 at index 5 (a Friday, on which the tables agree). -/
theorem c9_schedule_variants_disagree_witness :
    dictGet scripts.LANGUAGE_SCHEDULE 5 = dictGet workflows.LANGUAGE_SCHEDULE 5 :=
  c9_schedule_variants_disagree.2.2.2.2 5 (by decide) (by decide)

/-- C10: when the repository-name value contains more than one `/`, the
loader splits only at the first one: the owner is the text before the
first separator and the name is everything after it (here `name` is
arbitrary and may contain further separators). -/
theorem c10_split_at_first_separator (repo_owner_env : Option String) (owner name : String)
    (h : owner.toList.contains '/' = false) :
    scripts.load_repo_identity repo_owner_env (owner ++ ("/" ++ name)) = .ok (owner, name) :=
  load_repo_identity_slug repo_owner_env owner name h

/-- Witness for C10: `"a/b/c"` yields owner `"a"` and name `"b/c"`. -/
theorem c10_split_at_first_separator_witness :
    scripts.load_repo_identity none ("a" ++ ("/" ++ "b/c")) = .ok ("a", "b/c")
    ∧ ("a" ++ ("/" ++ "b/c")) = "a/b/c" :=
  ⟨c10_split_at_first_separator none "a" "b/c" (by decide), by decide⟩

/-- C4: a repository-name value containing `/` is split into owner
(before the first separator) and name (after it); a bare name with a
supplied non-empty owner uses both as given; a bare name with no owner
(absent or empty) fails with a configuration error. -/
theorem c4_repo_identity (repo_owner_env : Option String) (repo_name_raw : String) :
    (∀ owner name : String, owner.toList.contains '/' = false →
      repo_name_raw = owner ++ ("/" ++ name) →
      scripts.load_repo_identity repo_owner_env repo_name_raw = .ok (owner, name))
    ∧ (repo_name_raw.toList.contains '/' = false →
      ((∀ o, repo_owner_env = some o → o ≠ "" →
          scripts.load_repo_identity repo_owner_env repo_name_raw = .ok (o, repo_name_raw))
        ∧ ((repo_owner_env = none ∨ repo_owner_env = some "") →
          ∃ e, scripts.load_repo_identity repo_owner_env repo_name_raw = .error e))) := by
  constructor
  · intro owner name howner hraw
    subst hraw
    exact load_repo_identity_slug repo_owner_env owner name howner
  · intro hno
    constructor
    · intro o ho hne
      subst ho
      have hne' : o.isEmpty = false := by
        rw [← Bool.not_eq_true, String.isEmpty_iff]
        exact hne
      unfold scripts.load_repo_identity
      rw [hno]
      simp [hne']
    · intro howner
      exact ⟨_, load_repo_identity_no_owner repo_name_raw hno repo_owner_env howner⟩

/-- Witness for C4: the slug `"acme/widgets"` splits into `"acme"` and
`"widgets"`; a bare name uses the supplied owner; a bare name with no
owner errors. -/
theorem c4_repo_identity_witness :
    scripts.load_repo_identity none ("acme" ++ ("/" ++ "widgets")) = .ok ("acme", "widgets")
    ∧ scripts.load_repo_identity (some "acme") "widgets" = .ok ("acme", "widgets")
    ∧ ∃ e, scripts.load_repo_identity none "widgets" = .error e :=
  ⟨(c4_repo_identity none _).1 "acme" "widgets" (by decide) rfl,
   ((c4_repo_identity (some "acme") "widgets").2 (by decide)).1 "acme" rfl (by decide),
   ((c4_repo_identity none "widgets").2 (by decide)).2 (Or.inl rfl)⟩

/-- C3: `generate_programming_tip` errors when the choices list is
empty, when the first choice's message content is absent or not a
string, or when the content trims to the empty string; otherwise it
returns exactly the trimmed content. -/
theorem c3_completion_validation (day_info : DayInfo) (choices : List Message) :
    (choices = [] →
      ∃ e, scripts.generate_programming_tip day_info choices = .error e)
    ∧ (∀ m rest, choices = m :: rest →
      ((∀ s, m.content ≠ PyVal.str s) →
        ∃ e, scripts.generate_programming_tip day_info choices = .error e)
      ∧ (∀ s, m.content = PyVal.str s → pyStrip s = "" →
        ∃ e, scripts.generate_programming_tip day_info choices = .error e)
      ∧ (∀ s, m.content = PyVal.str s → pyStrip s ≠ "" →
        scripts.generate_programming_tip day_info choices = .ok (pyStrip s))) := by
  constructor
  · intro h
    subst h
    exact ⟨_, rfl⟩
  · intro m rest h
    subst h
    refine ⟨?_, ?_, ?_⟩
    · intro hs
      match hm : m.content with
      | PyVal.none =>
        exact ⟨"Received empty or non-string content from Groq completion",
          by simp [scripts.generate_programming_tip, hm, pyTruthy, isStr]⟩
      | PyVal.str s => exact absurd hm (hs s)
      | PyVal.other t =>
        exact ⟨"Received empty or non-string content from Groq completion",
          by simp [scripts.generate_programming_tip, hm, pyTruthy, isStr]⟩
    · intro s hm ht
      by_cases hs : s = ""
      · subst hs
        exact ⟨"Received empty or non-string content from Groq completion",
          by simp [scripts.generate_programming_tip, hm, pyTruthy, isStr,
            show ("" : String).isEmpty = true from rfl]⟩
      · have hne : s.isEmpty = false := by
          rw [← Bool.not_eq_true, String.isEmpty_iff]
          exact hs
        have hte : (pyStrip s).isEmpty = true := by
          rw [String.isEmpty_iff]
          exact ht
        exact ⟨"Groq completion content was blank after stripping whitespace",
          by simp [scripts.generate_programming_tip, hm, pyTruthy, isStr, hne, hte]⟩
    · intro s hm ht
      have hs : s ≠ "" := by
        intro hs
        subst hs
        exact ht rfl
      have hne : s.isEmpty = false := by
        rw [← Bool.not_eq_true, String.isEmpty_iff]
        exact hs
      have hte : (pyStrip s).isEmpty = false := by
        rw [← Bool.not_eq_true, String.isEmpty_iff]
        exact ht
      simp [scripts.generate_programming_tip, hm, pyTruthy, isStr, hne, hte]

/-- Witness for C3: a response whose first choice has content
`" tip "` yields exactly the trimmed string `"tip"`. -/
theorem c3_completion_validation_witness :
    scripts.generate_programming_tip ⟨"Monday", "Python", "2026-01-05"⟩
      [⟨PyVal.str " tip "⟩] = .ok "tip" :=
  ((c3_completion_validation ⟨"Monday", "Python", "2026-01-05"⟩
      [⟨PyVal.str " tip "⟩]).2 ⟨PyVal.str " tip "⟩ [] rfl).2.2 " tip " rfl (by decide)

/-- C5: a GraphQL response body with an `errors` key makes
`github_graphql` fail with the rendered error detail; a response whose
`data` lacks the expected nested `repository.id` — or where `id` is not
a non-empty string — makes `fetch_repository_id` fail with a message
naming the repository ID, and likewise for `discussion.url` and
`create_discussion`. -/
theorem c5_graphql_errors (payload : List (String × Json)) :
    (∀ e, getKey payload "errors" = some e →
      scripts.github_graphql payload = .error ("GitHub GraphQL error: " ++ reprJson e))
    ∧ (∀ dataFields, getKey payload "errors" = none →
        getKey payload "data" = some (Json.obj dataFields) →
      ((∀ repoFields, getKey dataFields "repository" ≠ some (Json.obj repoFields)) →
        scripts.fetch_repository_id payload =
          .error "Unable to resolve repository ID from GitHub API response")
      ∧ (∀ repoFields, getKey dataFields "repository" = some (Json.obj repoFields) →
          getKey repoFields "id" = none →
        scripts.fetch_repository_id payload =
          .error "Unable to resolve repository ID from GitHub API response")
      ∧ (∀ repoFields v, getKey dataFields "repository" = some (Json.obj repoFields) →
          getKey repoFields "id" = some v → (∀ s, v = Json.str s → s = "") →
        scripts.fetch_repository_id payload =
          .error "GitHub repository ID was missing or invalid")
      ∧ (∀ repo_id title body,
          (∀ discFields, scripts.discussionOf dataFields ≠ some (Json.obj discFields)) →
        scripts.create_discussion payload repo_id title body =
          .error "GitHub did not return a discussion URL")
      ∧ (∀ repo_id title body discFields,
          scripts.discussionOf dataFields = some (Json.obj discFields) →
          getKey discFields "url" = none →
        scripts.create_discussion payload repo_id title body =
          .error "GitHub did not return a discussion URL")
      ∧ (∀ repo_id title body discFields v,
          scripts.discussionOf dataFields = some (Json.obj discFields) →
          getKey discFields "url" = some v → (∀ s, v = Json.str s → s = "") →
        scripts.create_discussion payload repo_id title body =
          .error "GitHub discussion URL was missing or invalid")) := by
  have hgg : ∀ dataFields, getKey payload "errors" = none →
      getKey payload "data" = some (Json.obj dataFields) →
      scripts.github_graphql payload = .ok (Json.obj dataFields) := by
    intro dataFields h1 h2
    unfold scripts.github_graphql
    rw [h1, h2]
  constructor
  · intro e he
    unfold scripts.github_graphql
    rw [he]
  · intro dataFields h1 h2
    have hok := hgg dataFields h1 h2
    refine ⟨?_, ?_, ?_, ?_, ?_, ?_⟩
    · intro hrepo
      cases hr : getKey dataFields "repository" with
      | none => simp only [scripts.fetch_repository_id, hok, hr]
      | some j =>
        cases j with
        | obj fs => exact absurd hr (hrepo fs)
        | null => simp only [scripts.fetch_repository_id, hok, hr]
        | bool b => simp only [scripts.fetch_repository_id, hok, hr]
        | num n => simp only [scripts.fetch_repository_id, hok, hr]
        | str s => simp only [scripts.fetch_repository_id, hok, hr]
        | arr xs => simp only [scripts.fetch_repository_id, hok, hr]
    · intro repoFields hr hid
      simp only [scripts.fetch_repository_id, hok, hr, hid]
    · intro repoFields v hr hid hv
      cases v with
      | str s =>
        have hs : s = "" := hv s rfl
        subst hs
        simp only [scripts.fetch_repository_id, hok, hr, hid,
          show ("" : String).isEmpty = true from rfl, if_true]
      | null => simp only [scripts.fetch_repository_id, hok, hr, hid]
      | bool b => simp only [scripts.fetch_repository_id, hok, hr, hid]
      | num n => simp only [scripts.fetch_repository_id, hok, hr, hid]
      | arr xs => simp only [scripts.fetch_repository_id, hok, hr, hid]
      | obj fs => simp only [scripts.fetch_repository_id, hok, hr, hid]
    · intro repo_id title body hdisc
      cases hd : scripts.discussionOf dataFields with
      | none => simp only [scripts.create_discussion, hok, hd]
      | some j =>
        cases j with
        | obj fs => exact absurd hd (hdisc fs)
        | null => simp only [scripts.create_discussion, hok, hd]
        | bool b => simp only [scripts.create_discussion, hok, hd]
        | num n => simp only [scripts.create_discussion, hok, hd]
        | str s => simp only [scripts.create_discussion, hok, hd]
        | arr xs => simp only [scripts.create_discussion, hok, hd]
    · intro repo_id title body discFields hd hurl
      simp only [scripts.create_discussion, hok, hd, hurl]
    · intro repo_id title body discFields v hd hurl hv
      cases v with
      | str s =>
        have hs : s = "" := hv s rfl
        subst hs
        simp only [scripts.create_discussion, hok, hd, hurl,
          show ("" : String).isEmpty = true from rfl, if_true]
      | null => simp only [scripts.create_discussion, hok, hd, hurl]
      | bool b => simp only [scripts.create_discussion, hok, hd, hurl]
      | num n => simp only [scripts.create_discussion, hok, hd, hurl]
      | arr xs => simp only [scripts.create_discussion, hok, hd, hurl]
      | obj fs => simp only [scripts.create_discussion, hok, hd, hurl]

/-- Witness for C5: an `errors` payload, a `data` object with no
`repository`, and a `data` object with no `createDiscussion`. -/
theorem c5_graphql_errors_witness :
    scripts.github_graphql [("errors", Json.arr [Json.str "boom"])] =
      .error ("GitHub GraphQL error: " ++ reprJson (Json.arr [Json.str "boom"]))
    ∧ scripts.fetch_repository_id [("data", Json.obj [])] =
      .error "Unable to resolve repository ID from GitHub API response"
    ∧ scripts.create_discussion [("data", Json.obj [])] "R_1" "title" "body" =
      .error "GitHub did not return a discussion URL" :=
  ⟨(c5_graphql_errors [("errors", Json.arr [Json.str "boom"])]).1
      (Json.arr [Json.str "boom"]) rfl,
   ((c5_graphql_errors [("data", Json.obj [])]).2 [] rfl rfl).1
      (fun repoFields h => by simp [getKey] at h),
   (((c5_graphql_errors [("data", Json.obj [])]).2 [] rfl rfl).2.2.2.1
      "R_1" "title" "body"
      (fun discFields h => by simp [scripts.discussionOf, getKey] at h))⟩

/-! ## Occurrence counting

Substring-occurrence machinery used to settle the prompt-content claim:
`countOccs pat s` is the number of positions of `s` at which `pat`
occurs. -/

/-- `pat` occurs at the head of `s`. -/
def startsWith : List Char → List Char → Bool
  | [], _ => true
  | _ :: _, [] => false
  | p :: ps, c :: cs => p == c && startsWith ps cs

/-- The number of positions of `s` at which `pat` occurs (the head
position and then recursively in the tail). -/
def countOccs (pat : List Char) : List Char → Nat
  | [] => 0
  | c :: rest => (if startsWith pat (c :: rest) then 1 else 0) + countOccs pat rest

/-- Characters that may occur in a `%Y-%m-%d` date: digits and `-`. -/
def isDC (c : Char) : Bool := c.isDigit || c == '-'

/-- Every character of `l` is a digit or `-`. -/
def allDC (l : List Char) : Bool := l.all isDC

/-- The date shape produced by `now.strftime("%Y-%m-%d")`, relaxed to
what the uniqueness argument needs: ten characters, all digits or
dashes. -/
def dateShaped (s : String) : Bool :=
  (s.toList.length == 10) && allDC s.toList

theorem dateShaped_spec (s : String) (h : dateShaped s = true) :
    s.toList.length = 10 ∧ allDC s.toList = true := by
  unfold dateShaped at h
  simp only [Bool.and_eq_true, beq_iff_eq] at h
  exact h

theorem startsWith_iff (pat s : List Char) :
    startsWith pat s = true ↔ ∃ t, s = pat ++ t := by
  induction pat generalizing s with
  | nil => simp [startsWith]
  | cons p ps ih =>
    cases s with
    | nil => simp [startsWith]
    | cons c cs =>
      simp only [startsWith, Bool.and_eq_true, beq_iff_eq]
      constructor
      · rintro ⟨rfl, h⟩
        obtain ⟨t, rfl⟩ := (ih cs).mp h
        exact ⟨t, rfl⟩
      · rintro ⟨t, ht⟩
        injection ht with h1 h2
        exact ⟨h1.symm, (ih cs).mpr ⟨t, h2⟩⟩

/-- Positions inside a block of non-digit/dash characters host no
occurrence of a digit/dash pattern. -/
theorem countOccs_append_nonDC (p0 : Char) (ps x z : List Char)
    (hp0 : isDC p0 = true) (hx : ∀ c ∈ x, isDC c = false) :
    countOccs (p0 :: ps) (x ++ z) = countOccs (p0 :: ps) z := by
  induction x with
  | nil => rfl
  | cons c cs ih =>
    have hc : isDC c = false := hx c (List.mem_cons_self c cs)
    have hne : (p0 == c) = false := by
      rw [beq_eq_false_iff_ne]
      intro hpc
      subst hpc
      rw [hp0] at hc
      simp at hc
    have hsw : startsWith (p0 :: ps) (c :: (cs ++ z)) = false := by
      simp [startsWith, hne]
    rw [List.cons_append]
    show (if startsWith (p0 :: ps) (c :: (cs ++ z)) then 1 else 0)
        + countOccs (p0 :: ps) (cs ++ z) = countOccs (p0 :: ps) z
    rw [hsw, if_neg (by simp), Nat.zero_add,
      ih fun d hd => hx d (List.mem_cons_of_mem c hd)]

/-- A ten-character digit/dash pattern has no occurrence in a list none
of whose suffixes opens with a ten-character digit/dash window. -/
theorem countOccs_zero_of_windowFree (pat z : List Char) (hlen : pat.length = 10)
    (hDC : allDC pat = true)
    (hz : ∀ t, t <:+ z → ¬(allDC (t.take 10) = true ∧ (t.take 10).length = 10)) :
    countOccs pat z = 0 := by
  induction z with
  | nil => rfl
  | cons c rest ih =>
    have hsw : startsWith pat (c :: rest) = false := by
      cases h : startsWith pat (c :: rest)
      · rfl
      · exfalso
        obtain ⟨t, ht⟩ := (startsWith_iff pat (c :: rest)).mp h
        apply hz (c :: rest) (List.suffix_refl _)
        rw [ht]
        have h10 : (pat ++ t).take 10 = pat := by
          rw [← hlen]
          exact List.take_left pat t
        rw [h10]
        exact ⟨hDC, hlen⟩
    have step : countOccs pat (c :: rest) =
        (if startsWith pat (c :: rest) then 1 else 0) + countOccs pat rest := rfl
    rw [step, hsw, if_neg (by simp), Nat.zero_add]
    exact ih fun t ht => hz t (ht.trans (List.suffix_cons c rest))

/-- Executable check that no suffix of `z` opens with a ten-character
digit/dash window. -/
def dcWindowFree : List Char → Bool
  | [] => true
  | c :: rest =>
    !(allDC (List.take 10 (c :: rest)) && (List.take 10 (c :: rest)).length == 10)
    && dcWindowFree rest

theorem windowFree_of_dcWindowFree (z : List Char) (h : dcWindowFree z = true) :
    ∀ t, t <:+ z → ¬(allDC (t.take 10) = true ∧ (t.take 10).length = 10) := by
  induction z with
  | nil =>
    intro t ht
    rw [List.suffix_nil.mp ht]
    simp
  | cons c rest ih =>
    rw [show dcWindowFree (c :: rest) =
        (!(allDC (List.take 10 (c :: rest)) && (List.take 10 (c :: rest)).length == 10)
          && dcWindowFree rest) from rfl, Bool.and_eq_true, Bool.not_eq_true'] at h
    intro t ht
    rw [List.suffix_cons_iff] at ht
    rcases ht with rfl | ht
    · rintro ⟨hA, hB⟩
      have hcontra : (allDC (List.take 10 (c :: rest))
          && (List.take 10 (c :: rest)).length == 10) = true := by
        rw [Bool.and_eq_true, hA]
        exact ⟨rfl, by rw [beq_iff_eq]; exact hB⟩
      rw [h.1] at hcontra
      simp at hcontra
    · exact ih h.2 t ht

/-- Prepending at most nine digit/dash characters to a list that opens
with a non-digit/dash character (and is itself window-free) keeps every
suffix free of ten-character digit/dash windows. -/
theorem windowFree_append (u y : List Char) (hu : allDC u = true) (hul : u.length ≤ 9)
    (hy0 : ∀ h t, y = h :: t → isDC h = false)
    (hyw : ∀ t, t <:+ y → ¬(allDC (t.take 10) = true ∧ (t.take 10).length = 10)) :
    ∀ t, t <:+ u ++ y → ¬(allDC (t.take 10) = true ∧ (t.take 10).length = 10) := by
  induction u with
  | nil => simpa using hyw
  | cons c cs ih =>
    intro t ht
    rw [List.cons_append, List.suffix_cons_iff] at ht
    rcases ht with rfl | ht
    · rintro ⟨hA, hB⟩
      have hcs : cs.length ≤ 8 := by
        rw [List.length_cons] at hul
        omega
      have hlt : 10 ≤ (c :: (cs ++ y)).length := by
        have hmin := List.length_take 10 (c :: (cs ++ y))
        rw [hB] at hmin
        omega
      have hy_len : 1 ≤ y.length := by
        rw [List.length_cons, List.length_append] at hlt
        omega
      obtain ⟨h0, y', rfl⟩ : ∃ h0 y', y = h0 :: y' := by
        cases y with
        | nil => simp at hy_len
        | cons a b => exact ⟨a, b, rfl⟩
      have h1 : (c :: (cs ++ (h0 :: y'))).take 10 = c :: (cs ++ (h0 :: y')).take 9 := rfl
      have h2 : (cs ++ (h0 :: y')).take 9 = cs ++ (h0 :: y').take (9 - cs.length) := by
        rw [List.take_append_eq_append_take, List.take_of_length_le (by omega)]
      obtain ⟨k, hk⟩ : ∃ k, 9 - cs.length = k + 1 := ⟨8 - cs.length, by omega⟩
      have hmem : h0 ∈ (c :: (cs ++ (h0 :: y'))).take 10 := by
        rw [h1, h2, hk]
        simp
      have hdc : isDC h0 = true := by
        rw [allDC, List.all_eq_true] at hA
        exact hA h0 hmem
      rw [hy0 h0 y' rfl] at hdc
      simp at hdc
    · refine ih ?_ ?_ t ht
      · rw [allDC, List.all_eq_true] at hu ⊢
        exact fun d hd => hu d (List.mem_cons_of_mem c hd)
      · rw [List.length_cons] at hul
        omega

/-- The sandwich lemma: a ten-character digit/dash pattern occurs
exactly once in `x ++ pat ++ y` when `x` has no digit/dash characters,
`y` opens with a non-digit/dash character, and `y` has no ten-character
digit/dash window. -/
theorem countOccs_sandwich (pat x y : List Char)
    (hlen : pat.length = 10) (hDC : allDC pat = true)
    (hx : ∀ c ∈ x, isDC c = false)
    (hy0 : ∀ h t, y = h :: t → isDC h = false)
    (hyw : ∀ t, t <:+ y → ¬(allDC (t.take 10) = true ∧ (t.take 10).length = 10)) :
    countOccs pat (x ++ (pat ++ y)) = 1 := by
  obtain ⟨p0, ps, rfl⟩ : ∃ p0 ps, pat = p0 :: ps := by
    cases pat with
    | nil => simp at hlen
    | cons a b => exact ⟨a, b, rfl⟩
  have hp0 : isDC p0 = true := by
    rw [allDC, List.all_eq_true] at hDC
    exact hDC p0 (List.mem_cons_self p0 ps)
  rw [countOccs_append_nonDC p0 ps x _ hp0 hx]
  have hzero : countOccs (p0 :: ps) (ps ++ y) = 0 := by
    apply countOccs_zero_of_windowFree _ _ hlen hDC
    apply windowFree_append ps y
    · rw [allDC, List.all_eq_true] at hDC ⊢
      exact fun d hd => hDC d (List.mem_cons_of_mem p0 hd)
    · rw [List.length_cons] at hlen
      omega
    · exact hy0
    · exact hyw
  have hsw : startsWith (p0 :: ps) ((p0 :: ps) ++ y) = true :=
    (startsWith_iff _ _).mpr ⟨y, rfl⟩
  have step : countOccs (p0 :: ps) ((p0 :: ps) ++ y) =
      (if startsWith (p0 :: ps) ((p0 :: ps) ++ y) then 1 else 0)
        + countOccs (p0 :: ps) (ps ++ y) := rfl
  rw [step, hsw, hzero, if_pos rfl]

/-- A pattern sitting between `x` and `y` occurs at least once. -/
theorem countOccs_pos (pat x y : List Char) (hp : pat ≠ []) :
    1 ≤ countOccs pat (x ++ (pat ++ y)) := by
  induction x with
  | nil =>
    obtain ⟨p0, ps, rfl⟩ : ∃ p0 ps, pat = p0 :: ps := by
      cases pat with
      | nil => exact absurd rfl hp
      | cons a b => exact ⟨a, b, rfl⟩
    have hsw : startsWith (p0 :: ps) ((p0 :: ps) ++ y) = true :=
      (startsWith_iff _ _).mpr ⟨y, rfl⟩
    have step : countOccs (p0 :: ps) ([] ++ ((p0 :: ps) ++ y)) =
        (if startsWith (p0 :: ps) ((p0 :: ps) ++ y) then 1 else 0)
          + countOccs (p0 :: ps) (ps ++ y) := rfl
    rw [step, hsw, if_pos rfl]
    omega
  | cons c cs ih =>
    have step : countOccs pat ((c :: cs) ++ (pat ++ y)) =
        (if startsWith pat (c :: (cs ++ (pat ++ y))) then 1 else 0)
          + countOccs pat (cs ++ (pat ++ y)) := rfl
    rw [step]
    omega

/-- `countOccs_pos` through three leading segments. -/
theorem countOccs_pos3 (pat a b c y : List Char) (hp : pat ≠ []) :
    1 ≤ countOccs pat (a ++ (b ++ (c ++ (pat ++ y)))) := by
  have h : a ++ (b ++ (c ++ (pat ++ y))) = (a ++ b ++ c) ++ (pat ++ y) := by
    simp [List.append_assoc]
  rw [h]
  exact countOccs_pos pat (a ++ b ++ c) y hp

/-- `countOccs_pos` through five leading segments. -/
theorem countOccs_pos5 (pat a b c d e y : List Char) (hp : pat ≠ []) :
    1 ≤ countOccs pat (a ++ (b ++ (c ++ (d ++ (e ++ (pat ++ y)))))) := by
  have h : a ++ (b ++ (c ++ (d ++ (e ++ (pat ++ y)))))
      = (a ++ b ++ c ++ d ++ e) ++ (pat ++ y) := by
    simp [List.append_assoc]
  rw [h]
  exact countOccs_pos pat (a ++ b ++ c ++ d ++ e) y hp

/-- Any list continuing `promptSeg2` opens with `'\n'`, which is not a
digit/dash character. -/
theorem head_newline (L : List Char) :
    ∀ h t, scripts.promptSeg2.toList ++ L = h :: t → isDC h = false := by
  intro h t heq
  have h2 : scripts.promptSeg2.toList ++ L = '\n' :: ("Day: ".toList ++ L) := rfl
  rw [h2] at heq
  injection heq with e1 _
  rw [← e1]
  rfl

/-- `promptSeg4` before `Introduction`. -/
def sec0 : String :=
  "\n\nFollow these exact rules:\n\nLanguage schedule\n- Monday → Python\n- Tuesday → Java\n- Wednesday → JavaScript\n- Thursday → Go\n- Friday, Saturday, Sunday → Wildcard (you may pick any language, including niche or emerging ones)\n\nPost structure and formatting\n1. "

/-- `promptSeg4` between `Introduction` and `Topic Preview`. -/
def sec1 : String := " — 1-2 sentences introducing yourself as the AI assistant.\n2. "

/-- `promptSeg4` between `Topic Preview` and `Fun Fact`. -/
def sec2 : String := " — Clearly state the specific concept or technique covered today.\n3. "

/-- `promptSeg4` between `Fun Fact` and `Tips/Notes`. -/
def sec3 : String :=
  " — 2-4 sentences about the scheduled language including year or origin context.\n4. "

/-- `promptSeg4` between `Tips/Notes` and `Code Snippet`. -/
def sec4 : String :=
  " — Provide exactly 1-2 practical syntax tips, functions, or features for the language.\n5. "

/-- `promptSeg4` between `Code Snippet` and `Explanation`. -/
def sec5 : String :=
  " — Provide a runnable example in the scheduled language that demonstrates the concept. Use a fenced code block tagged with the lowercase language name. The snippet must be 30-50 lines, beginner-friendly yet intermediate in difficulty, and follow PEP 8 if the language is Python. Include helpful inline comments.\n6. "

/-- `promptSeg4` between `Explanation` and `Sources`. -/
def sec6 : String :=
  " — Offer a step-by-step breakdown of how the code works, why the concept matters, and practical use cases. Use numbered steps.\n7. "

/-- `promptSeg4` after `Sources`. -/
def sec7 : String :=
  " — If you referenced any external material, cite the links in Markdown list format. If not, output \"Sources: None\".\n\nAdditional requirements\n- Maintain professional, concise, beginner-friendly tone.\n- Never add sections beyond the list above.\n- Always produce valid Markdown.\n- For wildcard days, still follow the structure and pick a language that differs from the workweek schedule.\n- Topic Preview, Fun Fact, and Tips must relate to the scheduled language ("

/-- `s` enumerates the seven required section names in the fixed order:
it decomposes as interleaving text around Introduction, Topic Preview,
Fun Fact, Tips/Notes, Code Snippet, Explanation, Sources in that
order. -/
def SectionsInOrder (s : String) : Prop :=
  ∃ a0 a1 a2 a3 a4 a5 a6 a7 : String,
    s = a0 ++ "Introduction" ++ a1 ++ "Topic Preview" ++ a2 ++ "Fun Fact" ++ a3 ++
      "Tips/Notes" ++ a4 ++ "Code Snippet" ++ a5 ++ "Explanation" ++ a6 ++ "Sources" ++ a7

set_option maxRecDepth 40000 in
/-- The fixed middle segment of the prompt template carries the seven
section names in order. -/
theorem promptSeg4_decompose :
    scripts.promptSeg4 = sec0 ++ "Introduction" ++ sec1 ++ "Topic Preview" ++ sec2 ++
      "Fun Fact" ++ sec3 ++ "Tips/Notes" ++ sec4 ++ "Code Snippet" ++ sec5 ++
      "Explanation" ++ sec6 ++ "Sources" ++ sec7 := by
  rfl

/-- Every rendered user prompt enumerates the seven section names in the
required order. -/
theorem sections_in_order_prompt (di : DayInfo) :
    SectionsInOrder (scripts.build_user_prompt di) := by
  refine ⟨scripts.promptSeg1 ++ di.date ++ scripts.promptSeg2 ++ di.day_name
      ++ scripts.promptSeg3 ++ di.language ++ sec0, sec1, sec2, sec3, sec4, sec5, sec6,
    sec7 ++ di.language ++ scripts.promptSeg5, ?_⟩
  unfold scripts.build_user_prompt
  rw [promptSeg4_decompose]
  simp [String.append_assoc]

/-- The occurrence counts of the prompt interpolations, for an arbitrary
day name and language (given as explicit side conditions): the date
occurs exactly once, the day name and the language at least once, and
the sections appear in order. -/
theorem c6_generic (dn lang dateStr : String) (hd : dateShaped dateStr = true)
    (hdn : dn.toList ≠ []) (hlang : lang.toList ≠ [])
    (hwf : dcWindowFree (scripts.promptSeg2.toList ++ (dn.toList ++
      (scripts.promptSeg3.toList ++ (lang.toList ++ (scripts.promptSeg4.toList ++
        (lang.toList ++ scripts.promptSeg5.toList)))))) = true) :
    countOccs dateStr.toList (scripts.build_user_prompt ⟨dn, lang, dateStr⟩).toList = 1
    ∧ 1 ≤ countOccs dn.toList (scripts.build_user_prompt ⟨dn, lang, dateStr⟩).toList
    ∧ 1 ≤ countOccs lang.toList (scripts.build_user_prompt ⟨dn, lang, dateStr⟩).toList
    ∧ SectionsInOrder (scripts.build_user_prompt ⟨dn, lang, dateStr⟩) := by
  obtain ⟨hlen, hDC⟩ := dateShaped_spec dateStr hd
  refine ⟨?_, ?_, ?_, sections_in_order_prompt _⟩
  · simp only [scripts.build_user_prompt, toList_app, List.append_assoc]
    exact countOccs_sandwich dateStr.toList scripts.promptSeg1.toList _
      hlen hDC (by decide) (head_newline _) (windowFree_of_dcWindowFree _ hwf)
  · simp only [scripts.build_user_prompt, toList_app, List.append_assoc]
    exact countOccs_pos3 dn.toList scripts.promptSeg1.toList dateStr.toList
      scripts.promptSeg2.toList _ hdn
  · simp only [scripts.build_user_prompt, toList_app, List.append_assoc]
    exact countOccs_pos5 lang.toList scripts.promptSeg1.toList dateStr.toList
      scripts.promptSeg2.toList dn.toList scripts.promptSeg3.toList _ hlang

set_option maxRecDepth 400000 in
/-- C6 (amended): for every resolved day-info (any primitive weekday,
any ten-character digit/dash date), the rendered user prompt contains
the literal resolved date exactly once and the day name and the language
each at least once (not exactly once: the fixed template text repeats
them), and enumerates the section names Introduction, Topic Preview,
Fun Fact, Tips/Notes, Code Snippet, Explanation, Sources in that fixed
order. -/
theorem c6_prompt_contents_amended (pw : Fin 7) (dateStr : String)
    (hd : dateShaped dateStr = true) (di : DayInfo)
    (hdi : scripts.get_current_day_info pw.val dateStr = some di) :
    countOccs dateStr.toList (scripts.build_user_prompt di).toList = 1
    ∧ 1 ≤ countOccs di.day_name.toList (scripts.build_user_prompt di).toList
    ∧ 1 ≤ countOccs di.language.toList (scripts.build_user_prompt di).toList
    ∧ SectionsInOrder (scripts.build_user_prompt di) := by
  fin_cases pw
  · have hdi2 : some (⟨"Monday", "Python", dateStr⟩ : DayInfo) = some di := hdi
    injection hdi2 with h
    subst h
    exact c6_generic "Monday" "Python" dateStr hd (by decide) (by decide) (by decide)
  · have hdi2 : some (⟨"Tuesday", "Java", dateStr⟩ : DayInfo) = some di := hdi
    injection hdi2 with h
    subst h
    exact c6_generic "Tuesday" "Java" dateStr hd (by decide) (by decide) (by decide)
  · have hdi2 : some (⟨"Wednesday", "JavaScript", dateStr⟩ : DayInfo) = some di := hdi
    injection hdi2 with h
    subst h
    exact c6_generic "Wednesday" "JavaScript" dateStr hd (by decide) (by decide) (by decide)
  · have hdi2 : some (⟨"Thursday", "Go", dateStr⟩ : DayInfo) = some di := hdi
    injection hdi2 with h
    subst h
    exact c6_generic "Thursday" "Go" dateStr hd (by decide) (by decide) (by decide)
  · have hdi2 : some (⟨"Friday", "Wildcard", dateStr⟩ : DayInfo) = some di := hdi
    injection hdi2 with h
    subst h
    exact c6_generic "Friday" "Wildcard" dateStr hd (by decide) (by decide) (by decide)
  · have hdi2 : some (⟨"Saturday", "Wildcard", dateStr⟩ : DayInfo) = some di := hdi
    injection hdi2 with h
    subst h
    exact c6_generic "Saturday" "Wildcard" dateStr hd (by decide) (by decide) (by decide)
  · have hdi2 : some (⟨"Sunday", "Wildcard", dateStr⟩ : DayInfo) = some di := hdi
    injection hdi2 with h
    subst h
    exact c6_generic "Sunday" "Wildcard" dateStr hd (by decide) (by decide) (by decide)

set_option maxRecDepth 400000 in
/-- C6 as stated is false: at the resolved Monday day-info the rendered
prompt does not contain the day name, the language and the date exactly
once each — the day name `"Monday"` occurs twice (the interpolated `Day:`
line and the fixed schedule listing). -/
theorem c6_prompt_contents_counterexample :
    scripts.get_current_day_info 0 "2026-01-05" =
      some ⟨"Monday", "Python", "2026-01-05"⟩
    ∧ ¬(countOccs ("Monday".toList)
          ((scripts.build_user_prompt ⟨"Monday", "Python", "2026-01-05"⟩).toList) = 1
        ∧ countOccs ("Python".toList)
          ((scripts.build_user_prompt ⟨"Monday", "Python", "2026-01-05"⟩).toList) = 1
        ∧ countOccs ("2026-01-05".toList)
          ((scripts.build_user_prompt ⟨"Monday", "Python", "2026-01-05"⟩).toList) = 1) := by
  refine ⟨rfl, fun hcl => ?_⟩
  have h2 : countOccs ("Monday".toList)
      ((scripts.build_user_prompt ⟨"Monday", "Python", "2026-01-05"⟩).toList) = 2 := by
    decide
  exact absurd (hcl.1.symm.trans h2) (by decide)

/-- Witness for the amended C6 at the resolved Monday day-info. -/
theorem c6_prompt_contents_amended_witness :
    dateShaped "2026-01-05" = true
    ∧ (countOccs ("2026-01-05".toList)
        ((scripts.build_user_prompt ⟨"Monday", "Python", "2026-01-05"⟩).toList) = 1
      ∧ 1 ≤ countOccs ("Monday".toList)
        ((scripts.build_user_prompt ⟨"Monday", "Python", "2026-01-05"⟩).toList)
      ∧ 1 ≤ countOccs ("Python".toList)
        ((scripts.build_user_prompt ⟨"Monday", "Python", "2026-01-05"⟩).toList)
      ∧ SectionsInOrder (scripts.build_user_prompt ⟨"Monday", "Python", "2026-01-05"⟩)) :=
  ⟨by decide, c6_prompt_contents_amended 0 "2026-01-05" (by decide)
    ⟨"Monday", "Python", "2026-01-05"⟩ rfl⟩

/-- Outbound GraphQL calls among a run's recorded actions. -/
def isOutboundCall : MainAction → Bool
  | .fetchRepositoryIdCall => true
  | .createDiscussionCall _ _ _ => true
  | .print _ => false

/-- The action prints a line in which `pat` occurs. -/
def printsContaining (pat : String) : MainAction → Bool
  | .print s => countOccs pat.toList s.toList != 0
  | _ => false

/-- C2 (amended): when the `DRY_RUN` environment value equals `"true"`
under case-insensitive comparison and the completion response is valid,
`main` performs no outbound GraphQL call (neither the repository-id
fetch nor the discussion creation), prints the generated body, and
terminates successfully. The claim's further assertion that the
generated title is also printed is dropped: only the body and a status
line carrying the title's day-name/date constituents are printed. -/
theorem c2_dry_run_amended (env : String → Option String) (v : String)
    (pyWeekday : Nat) (dateStr : String) (choices : List Message)
    (repoPayload discPayload : List (String × Json)) (day_info : DayInfo) (body : String)
    (hv : env "DRY_RUN" = some v) (hlow : pyLower v = "true")
    (hdi : scripts.get_current_day_info pyWeekday dateStr = some day_info)
    (hgen : scripts.generate_programming_tip day_info choices = .ok body) :
    scripts.DRY_RUN env = true
    ∧ (∀ a ∈ (scripts.main (scripts.DRY_RUN env) pyWeekday dateStr choices
        repoPayload discPayload).1, isOutboundCall a = false)
    ∧ MainAction.print body ∈ (scripts.main (scripts.DRY_RUN env) pyWeekday dateStr choices
        repoPayload discPayload).1
    ∧ (scripts.main (scripts.DRY_RUN env) pyWeekday dateStr choices
        repoPayload discPayload).2 = Except.ok () := by
  have hDR : scripts.DRY_RUN env = true := by
    unfold scripts.DRY_RUN
    rw [hv]
    show (pyLower v == "true") = true
    rw [hlow]
    rfl
  have hmain : scripts.main (scripts.DRY_RUN env) pyWeekday dateStr choices
      repoPayload discPayload =
      ([MainAction.print ("Generating Daily Programming Insight for " ++ day_info.day_name
          ++ " (" ++ day_info.date ++ ")"),
        MainAction.print "DRY_RUN enabled - not posting to GitHub.",
        MainAction.print "--- Generated Post ---",
        MainAction.print body], Except.ok ()) := by
    rw [hDR]
    simp only [scripts.main, hdi, hgen, if_true]
  refine ⟨hDR, ?_, ?_, ?_⟩
  · rw [hmain]
    intro a ha
    simp only [List.mem_cons, List.not_mem_nil, or_false] at ha
    rcases ha with rfl | rfl | rfl | rfl <;> rfl
  · rw [hmain]
    simp
  · rw [hmain]

/-- C2 as stated is false at a concrete dry-run input: with
`DRY_RUN="true"`, a Monday date, and a valid completion body, the run
succeeds but the generated title string
`"Daily Programming Insight — 2026-01-05 (Monday)"` occurs in no printed
line, so the title is not surfaced by printing. -/
theorem c2_dry_run_counterexample :
    scripts.DRY_RUN (fun name => if name = "DRY_RUN" then some "true" else none) = true
    ∧ (scripts.main
        (scripts.DRY_RUN (fun name => if name = "DRY_RUN" then some "true" else none))
        0 "2026-01-05" [⟨PyVal.str "hello team"⟩] [] []).2 = Except.ok ()
    ∧ ((scripts.main
        (scripts.DRY_RUN (fun name => if name = "DRY_RUN" then some "true" else none))
        0 "2026-01-05" [⟨PyVal.str "hello team"⟩] [] []).1.any
        (printsContaining "Daily Programming Insight — 2026-01-05 (Monday)")) = false := by
  refine ⟨rfl, rfl, ?_⟩
  decide

/-- Witness for the amended C2: `DRY_RUN=TRUE` (mixed case), a Monday
date, and the completion body `"hello team"`. -/
theorem c2_dry_run_amended_witness :
    scripts.DRY_RUN (fun name => if name = "DRY_RUN" then some "TRUE" else none) = true
    ∧ (∀ a ∈ (scripts.main
        (scripts.DRY_RUN (fun name => if name = "DRY_RUN" then some "TRUE" else none))
        0 "2026-01-05" [⟨PyVal.str "hello team"⟩] [] []).1, isOutboundCall a = false)
    ∧ MainAction.print "hello team" ∈ (scripts.main
        (scripts.DRY_RUN (fun name => if name = "DRY_RUN" then some "TRUE" else none))
        0 "2026-01-05" [⟨PyVal.str "hello team"⟩] [] []).1
    ∧ (scripts.main
        (scripts.DRY_RUN (fun name => if name = "DRY_RUN" then some "TRUE" else none))
        0 "2026-01-05" [⟨PyVal.str "hello team"⟩] [] []).2 = Except.ok () :=
  c2_dry_run_amended (fun name => if name = "DRY_RUN" then some "TRUE" else none) "TRUE"
    0 "2026-01-05" [⟨PyVal.str "hello team"⟩] [] [] ⟨"Monday", "Python", "2026-01-05"⟩
    "hello team" rfl (by decide) rfl rfl
